import Mathlib

/-!
Verification of the personal library management system
(`library_management_system.py`).

The program keeps an in-memory list `books_store` of flat book records,
persists it as a JSON array in `books.json`, downloads books over HTTP,
extracts text from PDF (falling back to OCR for image-only pages) and
DOCX files, and exports the store to CSV.

Modelling choices:
* A book record is a structure with the four string fields the code uses
  (`title`, `author`, `year`, `file_path`).
* JSON is modelled at the value level (`Json` below): `json.dump`
  followed by `json.load` round-trips any value built from strings,
  arrays and objects, so the file written by `save_books` is modelled as
  the encoded value itself.
* The state of the `books.json` file is `FileState := Option (Option Json)`:
  `none` means the file does not exist (opening raises `FileNotFoundError`),
  `some none` means it exists but is not valid JSON (`json.load` raises
  `JSONDecodeError`), and `some (some j)` means it parses to the value `j`.
* External library calls (`validators.url`, `requests.get`,
  `page.get_text()`, `pytesseract.image_to_string`, `docx` paragraphs)
  are modelled as oracle inputs to the corresponding functions.
* `input()` values are explicit arguments.
-/

namespace LibraryMS

/-- A book record as built by `add_books`: a flat mapping with the four
string fields `title`, `author`, `year`, `file_path`. -/
structure BookRec where
  title : String
  author : String
  year : String
  file_path : String
deriving Repr, DecidableEq

/-- JSON values, as produced by Python's `json.load`. -/
inductive Json where
  | null : Json
  | bool : Bool → Json
  | num : Int → Json
  | str : String → Json
  | arr : List Json → Json
  | obj : List (String × Json) → Json

/-- State of the `books.json` file: `none` = file missing,
`some none` = present but not valid JSON, `some (some j)` = parses to `j`. -/
def FileState : Type := Option (Option Json)

/-- Exceptions the Python code can raise or catch. -/
inductive PyExn where
  | fileNotFound : PyExn
  | jsonDecode : PyExn
  | keyError : PyExn
  | typeError : PyExn
deriving Repr, DecidableEq

/-! ### Python string stripping

`str.strip()` with no argument removes leading and trailing whitespace.
We model the ASCII whitespace characters Python strips. -/

/-- Characters removed by Python's `str.strip()` (ASCII whitespace). -/
def isPySpace (c : Char) : Bool :=
  c = ' ' || c = '\t' || c = '\n' || c = '\x0d' || c = '\x0b' || c = '\x0c'

/-- `str.strip()` on a list of characters. -/
def pyStripList (l : List Char) : List Char :=
  ((l.dropWhile isPySpace).reverse.dropWhile isPySpace).reverse

/-- Python's `s.strip()`. -/
def pyStrip (s : String) : String :=
  String.mk (pyStripList s.data)

/-- A string consisting only of whitespace (so that `s.strip()` is empty,
i.e. `not s.strip()` is true in Python). -/
def isAllWhitespace (s : String) : Bool :=
  s.data.all isPySpace

theorem dropWhile_eq_nil_iff_all {p : Char → Bool} {l : List Char} :
    l.dropWhile p = [] ↔ ∀ c ∈ l, p c := by
  induction l with
  | nil => simp
  | cons a t ih =>
    by_cases h : p a
    · simp [List.dropWhile_cons, h, ih]
    · simp [List.dropWhile_cons, h]

theorem pyStripList_eq_nil_iff {l : List Char} :
    pyStripList l = [] ↔ ∀ c ∈ l, isPySpace c := by
  unfold pyStripList
  rw [List.reverse_eq_nil_iff, dropWhile_eq_nil_iff_all]
  constructor
  · intro h c hc
    rw [← List.takeWhile_append_dropWhile (p := isPySpace) (l := l)] at hc
    rcases List.mem_append.mp hc with h1 | h2
    · exact List.mem_takeWhile_imp h1
    · exact h c (List.mem_reverse.mpr h2)
  · intro h c hc
    exact h c (List.dropWhile_subset _ (List.mem_reverse.mp hc))

theorem pyStrip_eq_empty_iff {s : String} :
    pyStrip s = "" ↔ isAllWhitespace s = true := by
  unfold pyStrip isAllWhitespace
  rw [show ("" : String) = String.mk [] from rfl]
  constructor
  · intro h
    have : pyStripList s.data = [] := by
      injection h
    simpa [List.all_eq_true] using pyStripList_eq_nil_iff.mp this
  · intro h
    have : pyStripList s.data = [] :=
      pyStripList_eq_nil_iff.mpr (by simpa [List.all_eq_true] using h)
    rw [this]

/-! ### JSON persistence (`save_books` / `load_books`)

`save_books` runs `json.dump(self.books_store, b, indent=4)` on the open
file and `load_books` runs `json.load(b)` guarded by `except
FileNotFoundError` (around `open`) and `except json.JSONDecodeError`
(around the load).  We model the dump at the JSON-value level: the value
written for a store of book records is a JSON array of four-key objects. -/

/-- The JSON object `json.dump` writes for one book record (a Python dict
with exactly the keys `title`, `author`, `year`, `file_path`, in insertion
order). -/
def encodeRec (b : BookRec) : Json :=
  Json.obj [("title", Json.str b.title), ("author", Json.str b.author),
            ("year", Json.str b.year), ("file_path", Json.str b.file_path)]

/-- The JSON array `json.dump` writes for the whole `books_store`. -/
def encodeStore (s : List BookRec) : Json :=
  Json.arr (s.map encodeRec)

/-- Reading a JSON value back as a book record: it must be an object with
exactly the four record keys bound to strings. -/
def decodeRec : Json → Option BookRec
  | Json.obj [("title", Json.str t), ("author", Json.str a),
              ("year", Json.str y), ("file_path", Json.str f)] =>
      some { title := t, author := a, year := y, file_path := f }
  | _ => none

/-- Reading a JSON value back as a book store: a JSON array whose every
element decodes to a book record. -/
def decodeStore : Json → Option (List BookRec)
  | Json.arr js => js.mapM decodeRec
  | _ => none

/-- `save_books`: opens `books.json` for writing and dumps the store.
The resulting file state parses to the encoded store. -/
def save_books (books_store : List BookRec) : FileState :=
  some (some (encodeStore books_store))

/-- Opening `books.json` for reading: raises `FileNotFoundError` when the
file is missing, otherwise hands its (possibly unparsable) contents on. -/
def openBooksFile (fs : FileState) : Except PyExn (Option Json) :=
  match fs with
  | none => Except.error PyExn.fileNotFound
  | some c => Except.ok c

/-- `json.load` on the opened file: raises `JSONDecodeError` when the
contents are not valid JSON. -/
def jsonLoad (c : Option Json) : Except PyExn Json :=
  match c with
  | none => Except.error PyExn.jsonDecode
  | some j => Except.ok j

/-- `load_books`: tries to open `books.json` and parse it.  The
`except FileNotFoundError` and `except json.JSONDecodeError` handlers
print a message and set `books_store = []` (encoded `Json.arr []`); any
other exception would propagate (`Except.error`).  On success
`books_store` becomes whatever JSON value the file held. -/
def load_books (fs : FileState) : Except PyExn Json :=
  match openBooksFile fs with
  | Except.error PyExn.fileNotFound => Except.ok (Json.arr [])
  | Except.error e => Except.error e
  | Except.ok content =>
      match jsonLoad content with
      | Except.error PyExn.jsonDecode => Except.ok (Json.arr [])
      | Except.error e => Except.error e
      | Except.ok j => Except.ok j

/-! ### `add_books`

`add_books` reads title, author, publication date and URL, validates the
URL with `validators.url`, downloads it with `requests.get`, and on HTTP
status 200 writes the body to `os.path.join(self.books_directory,
os.path.basename(book_url))` and appends the new record.  The validator's
verdict and the HTTP status code are external inputs, modelled as
arguments. -/

/-- `self.books_directory` as set in `__init__`. -/
def books_directory : String := "books"

/-- Python's `s.startswith(prefix)`. -/
def pyStartsWith (s pre : String) : Bool :=
  pre.data.isPrefixOf s.data

/-- Python's `s.endswith(suffix)`: the suffix's characters are a suffix
of `s`'s characters. -/
def pyEndsWith (s suffix : String) : Bool :=
  suffix.data.isSuffixOf s.data

/-- `os.path.basename` (POSIX): the part after the last `/` (the whole
string when it holds no `/`). -/
def osPathBasename (p : String) : String :=
  String.mk ((p.data.reverse.takeWhile (fun c => c != '/')).reverse)

/-- `os.path.join a b` (POSIX, two arguments): `b` if it is absolute,
otherwise `a` and `b` glued with a single `/` (none added when `a` is
empty or already ends in `/`). -/
def osPathJoin (a b : String) : String :=
  if pyStartsWith b "/" then b
  else if a = "" || pyEndsWith a "/" then a ++ b
  else a ++ "/" ++ b

/-- The `input()` values `add_books` reads. -/
structure AddInput where
  title : String
  author : String
  publication_date : String
  book_url : String

/-- What `add_books` leaves behind: the new `books_store` and the path of
the downloaded file, when one was written. -/
structure AddOutcome where
  store : List BookRec
  written : Option String
deriving Repr, DecidableEq

/-- `add_books`.  `urlValid` is `validators.url(book_url)`;
`status` is `response.status_code` of the `requests.get` call.
Invalid URL: print and return.  Status ≠ 200: print and return.
Otherwise write the file and append the four-field record. -/
def add_books (inp : AddInput) (urlValid : Bool) (status : Nat)
    (books_store : List BookRec) : AddOutcome :=
  if !urlValid then
    { store := books_store, written := none }
  else if status = 200 then
    let file_name := osPathJoin books_directory (osPathBasename inp.book_url)
    let new_book : BookRec :=
      { title := inp.title, author := inp.author,
        year := inp.publication_date, file_path := file_name }
    { store := books_store ++ [new_book], written := some file_name }
  else
    { store := books_store, written := none }

/-! ### Linear search operations: `remove_book`, `edit_book`, `read_book`

Each scans `self.books_store` from the front with a `for` loop, acts on
the first record whose `title` equals the input, and `return`s; if the
loop falls through, a not-found message is printed.  The returned `Bool`
records whether a match was found (success message vs not-found
message). -/

/-- `remove_book`: delete the first record whose title equals the input. -/
def remove_book (t : String) : List BookRec → List BookRec × Bool
  | [] => ([], false)
  | b :: rest =>
      if b.title = t then (rest, true)
      else
        let r := remove_book t rest
        (b :: r.1, r.2)

/-- The raw `input()` values `edit_book` reads for the four fields. -/
structure EditInput where
  new_title : String
  new_author : String
  new_year : String
  new_file_path : String

/-- The update `edit_book` applies to the matched record: each raw input
is stripped, and `stripped or current` (Python `or`) keeps the current
value when the stripped input is the empty string.  The subsequent
`if new_x != book[...]` guards only skip writes of identical values. -/
def applyEdit (i : EditInput) (b : BookRec) : BookRec :=
  { title := if pyStrip i.new_title = "" then b.title else pyStrip i.new_title,
    author := if pyStrip i.new_author = "" then b.author else pyStrip i.new_author,
    year := if pyStrip i.new_year = "" then b.year else pyStrip i.new_year,
    file_path := if pyStrip i.new_file_path = "" then b.file_path
                 else pyStrip i.new_file_path }

/-- `edit_book`: update the first record whose title equals the input. -/
def edit_book (t : String) (i : EditInput) : List BookRec → List BookRec × Bool
  | [] => ([], false)
  | b :: rest =>
      if b.title = t then (applyEdit i b :: rest, true)
      else
        let r := edit_book t i rest
        (b :: r.1, r.2)

/-- The search part of `read_book`: the first record whose title equals
the input (`none` when the loop falls through to the not-found print). -/
def findBook (t : String) : List BookRec → Option BookRec
  | [] => none
  | b :: rest => if b.title = t then some b else findBook t rest

/-! ### Text extraction in `read_book`

After finding the record, `read_book` dispatches on the extension of
`file_path`: `.pdf` → PyMuPDF page loop with OCR fallback, `.docx` →
paragraph join, otherwise an "Unsupported file format" print and no
extraction.  The external libraries are modelled as oracles: a PDF page
carries the text layer `page.get_text()` returns and the string
`pytesseract.image_to_string` would return for its rasterized pixmap. -/

/-- Oracle view of one PDF page. -/
structure PdfPage where
  /-- `page.get_text()`: the page's extractable text layer. -/
  textLayer : String
  /-- `pytesseract.image_to_string(img)` for the page's rasterized pixmap. -/
  ocrText : String

/-- The body of the `for page_num in range(num_pages)` loop, accumulating
into `extracted_text`: use the text layer unless `not text.strip()`, in
which case rasterize and OCR. -/
def extractPdfLoop (acc : String) : List PdfPage → String
  | [] => acc
  | p :: rest =>
      extractPdfLoop
        (acc ++ (if pyStrip p.textLayer = "" then p.ocrText else p.textLayer))
        rest

/-- The PDF branch of `read_book`: the extracted text for the pages of
the opened document, in page order. -/
def extractPdfText (pages : List PdfPage) : String :=
  extractPdfLoop "" pages

/-- The DOCX branch of `read_book`:
`"\n".join([paragraph.text for paragraph in doc.paragraphs])`. -/
def extractDocxText (paragraphs : List String) : String :=
  String.intercalate "\n" paragraphs

/-- What the dispatch on the found record's `file_path` produces:
`some text` = the text that is printed and written to `{title}.txt`;
`none` = the "Unsupported file format" message, nothing extracted or
written.  `pdfPages` and `docxParagraphs` are the oracle contents the
external libraries would report for the file at that path. -/
def readBookDispatch (file_path : String) (pdfPages : List PdfPage)
    (docxParagraphs : List String) : Option String :=
  if pyEndsWith file_path ".pdf" then
    some (extractPdfText pdfPages)
  else if pyEndsWith file_path ".docx" then
    some (extractDocxText docxParagraphs)
  else
    none

/-! ### `export_as_csv`

Re-reads `self.filename` (`books.json`) with `json.load` — not the
in-memory `books_store` — and writes a header row plus one row per
element of the parsed array, each row holding the element's `title`,
`author`, `year` and `file_path` values.  There is no `try`, so a
missing or unparsable file and a missing key raise.  Cells keep their
JSON values (the `csv` module stringifies them on write). -/

/-- The `fieldnames` of the `csv.DictWriter`. -/
def csvFieldnames : List String := ["title", "author", "year", "file_path"]

/-- Python `book[field]` on a parsed JSON value: a `KeyError` when the
object lacks the key, a `TypeError` when the value is not an object. -/
def jsonIndex (j : Json) (k : String) : Except PyExn Json :=
  match j with
  | Json.obj kvs =>
      match kvs.lookup k with
      | some v => Except.ok v
      | none => Except.error PyExn.keyError
  | _ => Except.error PyExn.typeError

/-- One `writer.writerow({field: book[field] for field in writer.fieldnames})`. -/
def csvRowOf (book : Json) : Except PyExn (List Json) :=
  csvFieldnames.mapM (jsonIndex book)

/-- `export_as_csv` on the current state of `books.json`.  The method
has `self.books_store` in scope but never consults it: it re-reads
`self.filename`.  The result is the sequence of CSV rows written: the
header from `writeheader()`, then one row per element of the parsed
array, in array order.  (Iteration over a non-array JSON value is
outside the claims and modelled as a `TypeError`.) -/
def export_as_csv (books_store : List BookRec) (fs : FileState) :
    Except PyExn (List (List Json)) :=
  match fs with
  | none => Except.error PyExn.fileNotFound
  | some none => Except.error PyExn.jsonDecode
  | some (some (Json.arr books)) => do
      let rows ← books.mapM csvRowOf
      pure (csvFieldnames.map Json.str :: rows)
  | some (some _) => Except.error PyExn.typeError

/-! ### Reachable stores

The in-memory `books_store` starts empty (a fresh run with no
`books.json`) and evolves through the menu loop in `main`: `add_books`
may append a record, `edit_book` and `remove_book` act on the first
title match, and `view_books`, `save_books`, `read_book` leave the store
unchanged. -/

/-- Stores reachable through the menu loop from an empty start. -/
inductive Reachable : List BookRec → Prop
  | start : Reachable []
  | add (inp : AddInput) (urlValid : Bool) (status : Nat) {s : List BookRec} :
      Reachable s → Reachable (add_books inp urlValid status s).store
  | edit (t : String) (i : EditInput) {s : List BookRec} :
      Reachable s → Reachable (edit_book t i s).1
  | remove (t : String) {s : List BookRec} :
      Reachable s → Reachable (remove_book t s).1

/-! ## Theorems -/

theorem decodeRec_encodeRec (b : BookRec) : decodeRec (encodeRec b) = some b :=
  rfl

theorem decodeStore_encodeStore (s : List BookRec) :
    decodeStore (encodeStore s) = some s := by
  show (s.map encodeRec).mapM decodeRec = some s
  rw [← List.mapM'_eq_mapM]
  induction s with
  | nil => rfl
  | cons b t ih =>
    rw [List.map_cons, List.mapM'_cons, decodeRec_encodeRec]
    simp [ih]

/-- C1. Persistence round-trip: saving any `books_store` of flat
string-field records and loading it back succeeds (no exception) and
yields the same records in the same order. -/
theorem save_load_roundtrip (s : List BookRec) :
    load_books (save_books s) = Except.ok (encodeStore s) ∧
      decodeStore (encodeStore s) = some s :=
  ⟨rfl, decodeStore_encodeStore s⟩

/-- The per-page text the spec describes: the OCR engine's output exactly
when the page's extracted text layer is empty after stripping whitespace,
the text layer itself otherwise. -/
def pageTextSpec (p : PdfPage) : String :=
  if isAllWhitespace p.textLayer then p.ocrText else p.textLayer

theorem stringJoin_cons (s : String) (l : List String) :
    String.join (s :: l) = s ++ String.join l := by
  apply String.ext
  simp [String.join_eq]

theorem extractPdfLoop_eq (pages : List PdfPage) (acc : String) :
    extractPdfLoop acc pages = acc ++ String.join (pages.map pageTextSpec) := by
  induction pages generalizing acc with
  | nil => simp [extractPdfLoop, String.join]
  | cons p rest ih =>
    rw [extractPdfLoop, ih, List.map_cons, stringJoin_cons]
    by_cases h : isAllWhitespace p.textLayer
    · rw [pageTextSpec, if_pos h, if_pos (pyStrip_eq_empty_iff.mpr h),
        String.append_assoc]
    · rw [pageTextSpec, if_neg h,
        if_neg (fun hc => h (pyStrip_eq_empty_iff.mp hc)), String.append_assoc]

/-- C2. OCR fallback: the text extracted in the PDF branch of `read_book`
is the concatenation, in page order, of the per-page texts, where a
page's text is the OCR engine's output if and only if the page's text
layer is empty after stripping whitespace, and the text layer itself
otherwise. -/
theorem pdf_ocr_fallback (pages : List PdfPage) :
    extractPdfText pages = String.join (pages.map pageTextSpec) := by
  rw [extractPdfText, extractPdfLoop_eq]
  simp

theorem pyEndsWith_docx_not_pdf {s : String}
    (h : pyEndsWith s ".docx" = true) : pyEndsWith s ".pdf" = false := by
  rw [← Bool.not_eq_true]
  simp only [pyEndsWith, List.isSuffixOf_iff_suffix] at *
  intro hp
  have hle : (".pdf".data).length ≤ (".docx".data).length := by decide
  have : ".pdf".data <:+ ".docx".data :=
    List.suffix_of_suffix_length_le hp h hle
  exact absurd this (by decide)

/-- C3. Extension dispatch in `read_book`: a `file_path` ending in
`.pdf` runs the PDF routine with OCR fallback, one ending in `.docx`
runs the DOCX routine whose extracted text is the paragraph texts joined
by newlines, and any other path yields the unsupported-format message
with no text extracted or written (`none`). -/
theorem read_book_dispatch (fp : String) (pages : List PdfPage)
    (paras : List String) :
    (pyEndsWith fp ".pdf" = true →
      readBookDispatch fp pages paras = some (extractPdfText pages)) ∧
    (pyEndsWith fp ".docx" = true →
      readBookDispatch fp pages paras =
        some (String.intercalate "\n" paras)) ∧
    (pyEndsWith fp ".pdf" = false → pyEndsWith fp ".docx" = false →
      readBookDispatch fp pages paras = none) := by
  refine ⟨fun hp => ?_, fun hd => ?_, fun hp hd => ?_⟩
  · rw [readBookDispatch, if_pos hp]
  · rw [readBookDispatch, if_neg (by simp [pyEndsWith_docx_not_pdf hd]),
      if_pos hd]
    rfl
  · rw [readBookDispatch, if_neg (by simp [hp]), if_neg (by simp [hd])]

/-- Witness for C3 at concrete paths `a.pdf`, `a.docx` and `a.txt`. -/
theorem read_book_dispatch_witness :
    readBookDispatch "a.pdf" [⟨"t", "o"⟩] [] = some (extractPdfText [⟨"t", "o"⟩]) ∧
    readBookDispatch "a.docx" [] ["p", "q"] = some (String.intercalate "\n" ["p", "q"]) ∧
    readBookDispatch "a.txt" [] [] = none :=
  ⟨(read_book_dispatch "a.pdf" [⟨"t", "o"⟩] []).1 (by decide),
   (read_book_dispatch "a.docx" [] ["p", "q"]).2.1 (by decide),
   (read_book_dispatch "a.txt" [] []).2.2 (by decide) (by decide)⟩

/-! ### Linear-search lemmas shared by C4 and C10 -/

theorem remove_book_not_found {t : String} {s : List BookRec}
    (h : ∀ b ∈ s, b.title ≠ t) : remove_book t s = (s, false) := by
  induction s with
  | nil => rfl
  | cons b rest ih =>
    rw [remove_book, if_neg (h b (by simp))]
    have hr := ih (fun c hc => h c (by simp [hc]))
    simp [hr]

theorem edit_book_not_found {t : String} {i : EditInput} {s : List BookRec}
    (h : ∀ b ∈ s, b.title ≠ t) : edit_book t i s = (s, false) := by
  induction s with
  | nil => rfl
  | cons b rest ih =>
    rw [edit_book, if_neg (h b (by simp))]
    have hr := ih (fun c hc => h c (by simp [hc]))
    simp [hr]

theorem findBook_not_found {t : String} {s : List BookRec}
    (h : ∀ b ∈ s, b.title ≠ t) : findBook t s = none := by
  induction s with
  | nil => rfl
  | cons b rest ih =>
    rw [findBook, if_neg (h b (by simp))]
    exact ih (fun c hc => h c (by simp [hc]))

theorem remove_book_first_match {t : String} {b : BookRec}
    (post : List BookRec) (hb : b.title = t) :
    ∀ pre : List BookRec, (∀ c ∈ pre, c.title ≠ t) →
      remove_book t (pre ++ b :: post) = (pre ++ post, true) := by
  intro pre hpre
  induction pre with
  | nil => simp [remove_book, hb]
  | cons c cs ih =>
    rw [List.cons_append, remove_book, if_neg (hpre c (by simp))]
    have hr := ih (fun d hd => hpre d (by simp [hd]))
    simp [hr]

theorem edit_book_first_match {t : String} {i : EditInput} {b : BookRec}
    (post : List BookRec) (hb : b.title = t) :
    ∀ pre : List BookRec, (∀ c ∈ pre, c.title ≠ t) →
      edit_book t i (pre ++ b :: post) = (pre ++ applyEdit i b :: post, true) := by
  intro pre hpre
  induction pre with
  | nil => simp [edit_book, hb]
  | cons c cs ih =>
    rw [List.cons_append, edit_book, if_neg (hpre c (by simp))]
    have hr := ih (fun d hd => hpre d (by simp [hd]))
    simp [hr]

theorem findBook_first_match {t : String} {b : BookRec}
    (post : List BookRec) (hb : b.title = t) :
    ∀ pre : List BookRec, (∀ c ∈ pre, c.title ≠ t) →
      findBook t (pre ++ b :: post) = some b := by
  intro pre hpre
  induction pre with
  | nil => simp [findBook, hb]
  | cons c cs ih =>
    rw [List.cons_append, findBook, if_neg (hpre c (by simp))]
    exact ih (fun d hd => hpre d (by simp [hd]))

/-- C4. First-match linear search: `read_book` (the search part),
`edit_book` and `remove_book` act on exactly the first record whose
title equals the input — `remove_book` deletes only that record and the
store shrinks by one, `edit_book` rewrites only that record, records
before and after the first match are untouched — and when no record
matches, the store is unchanged and the not-found message is printed
(`false`). -/
theorem first_match_linear_search (t : String) (i : EditInput)
    (s : List BookRec) :
    ((∀ b ∈ s, b.title ≠ t) →
      remove_book t s = (s, false) ∧ edit_book t i s = (s, false) ∧
        findBook t s = none) ∧
    (∀ pre b post, s = pre ++ b :: post → (∀ c ∈ pre, c.title ≠ t) →
      b.title = t →
      remove_book t s = (pre ++ post, true) ∧
        (remove_book t s).1.length + 1 = s.length ∧
        edit_book t i s = (pre ++ applyEdit i b :: post, true) ∧
        findBook t s = some b) := by
  refine ⟨fun h => ⟨remove_book_not_found h, edit_book_not_found h,
    findBook_not_found h⟩, ?_⟩
  rintro pre b post rfl hpre hb
  refine ⟨remove_book_first_match post hb pre hpre, ?_,
    edit_book_first_match post hb pre hpre,
    findBook_first_match post hb pre hpre⟩
  rw [remove_book_first_match post hb pre hpre]
  simp [Nat.succ_eq_add_one]
  omega

/-- Witness for C4: a store with two records of the same title; the
operations act on the first and leave the second untouched, and a
non-matching title leaves the store unchanged. -/
theorem first_match_linear_search_witness :
    remove_book "A" [⟨"A", "x", "1", "p"⟩, ⟨"A", "y", "2", "q"⟩] =
      ([⟨"A", "y", "2", "q"⟩], true) ∧
    edit_book "A" ⟨"", "", "", ""⟩ [⟨"A", "x", "1", "p"⟩, ⟨"A", "y", "2", "q"⟩] =
      ([applyEdit ⟨"", "", "", ""⟩ ⟨"A", "x", "1", "p"⟩, ⟨"A", "y", "2", "q"⟩], true) ∧
    findBook "A" [⟨"A", "x", "1", "p"⟩, ⟨"A", "y", "2", "q"⟩] =
      some ⟨"A", "x", "1", "p"⟩ ∧
    remove_book "Z" [⟨"A", "x", "1", "p"⟩, ⟨"A", "y", "2", "q"⟩] =
      ([⟨"A", "x", "1", "p"⟩, ⟨"A", "y", "2", "q"⟩], false) := by
  have hfirst := (first_match_linear_search "A" ⟨"", "", "", ""⟩
    [⟨"A", "x", "1", "p"⟩, ⟨"A", "y", "2", "q"⟩]).2
    [] ⟨"A", "x", "1", "p"⟩ [⟨"A", "y", "2", "q"⟩] rfl (by simp) rfl
  have hnone := (first_match_linear_search "Z" ⟨"", "", "", ""⟩
    [⟨"A", "x", "1", "p"⟩, ⟨"A", "y", "2", "q"⟩]).1 (by decide)
  exact ⟨hfirst.1, hfirst.2.2.1, hfirst.2.2.2, hnone.1⟩

/-- The `input().strip() or current` idiom of `edit_book`, characterized
by whether the raw input is empty or only whitespace. -/
theorem stripOr_spec (inp cur : String) :
    (isAllWhitespace inp = true →
      (if pyStrip inp = "" then cur else pyStrip inp) = cur) ∧
    (isAllWhitespace inp = false →
      (if pyStrip inp = "" then cur else pyStrip inp) = pyStrip inp) := by
  constructor
  · intro h
    rw [if_pos (pyStrip_eq_empty_iff.mpr h)]
  · intro h
    rw [if_neg fun hc => by simp [pyStrip_eq_empty_iff.mp hc] at h]

/-- C10. Edit keeps blanks and frames other records: for each of the
four fields, an input that is empty or only whitespace keeps the matched
record's current value, any other input replaces it by the stripped
input; and records other than the first matching one are never modified
(those before and after the match are returned unchanged). -/
theorem edit_book_blank_fields_frame (i : EditInput) (b : BookRec) :
    ((isAllWhitespace i.new_title = true → (applyEdit i b).title = b.title) ∧
     (isAllWhitespace i.new_title = false →
       (applyEdit i b).title = pyStrip i.new_title)) ∧
    ((isAllWhitespace i.new_author = true → (applyEdit i b).author = b.author) ∧
     (isAllWhitespace i.new_author = false →
       (applyEdit i b).author = pyStrip i.new_author)) ∧
    ((isAllWhitespace i.new_year = true → (applyEdit i b).year = b.year) ∧
     (isAllWhitespace i.new_year = false →
       (applyEdit i b).year = pyStrip i.new_year)) ∧
    ((isAllWhitespace i.new_file_path = true →
       (applyEdit i b).file_path = b.file_path) ∧
     (isAllWhitespace i.new_file_path = false →
       (applyEdit i b).file_path = pyStrip i.new_file_path)) ∧
    (∀ t pre m post, m.title = t → (∀ c ∈ pre, c.title ≠ t) →
      edit_book t i (pre ++ m :: post) = (pre ++ applyEdit i m :: post, true)) :=
  ⟨stripOr_spec i.new_title b.title, stripOr_spec i.new_author b.author,
   stripOr_spec i.new_year b.year, stripOr_spec i.new_file_path b.file_path,
   fun _ pre m post hm hpre => edit_book_first_match post hm pre hpre⟩

/-- Witness for C10: mixed blank and non-blank inputs on a concrete
store with a second record sharing the title. -/
theorem edit_book_blank_fields_frame_witness :
    (applyEdit ⟨"  ", "New Author", "\t", " 1999 "⟩ ⟨"A", "x", "1", "p"⟩).title = "A" ∧
    (applyEdit ⟨"  ", "New Author", "\t", " 1999 "⟩ ⟨"A", "x", "1", "p"⟩).author = "New Author" ∧
    (applyEdit ⟨"  ", "New Author", "\t", " 1999 "⟩ ⟨"A", "x", "1", "p"⟩).year = "1" ∧
    (applyEdit ⟨"  ", "New Author", "\t", " 1999 "⟩ ⟨"A", "x", "1", "p"⟩).file_path = "1999" ∧
    edit_book "A" ⟨"  ", "New Author", "\t", " 1999 "⟩
        [⟨"B", "u", "2", "q"⟩, ⟨"A", "x", "1", "p"⟩, ⟨"A", "y", "3", "r"⟩] =
      ([⟨"B", "u", "2", "q"⟩,
        applyEdit ⟨"  ", "New Author", "\t", " 1999 "⟩ ⟨"A", "x", "1", "p"⟩,
        ⟨"A", "y", "3", "r"⟩], true) := by
  have h := edit_book_blank_fields_frame ⟨"  ", "New Author", "\t", " 1999 "⟩
    ⟨"A", "x", "1", "p"⟩
  refine ⟨h.1.1 (by decide), ?_, h.2.2.1.1 (by decide), ?_,
    h.2.2.2.2 "A" [⟨"B", "u", "2", "q"⟩] ⟨"A", "x", "1", "p"⟩
      [⟨"A", "y", "3", "r"⟩] rfl (by decide)⟩
  · rw [h.2.1.2 (by decide)]; decide
  · rw [h.2.2.2.1.2 (by decide)]; decide

/-! ### C5: title uniqueness fails — duplicates are reachable -/

/-- Adding the same title twice through `add_books` (valid URL, HTTP
200) yields a reachable store with two records of equal title. -/
theorem dup_title_store_reachable :
    Reachable [⟨"A", "a1", "2000", "books/x.pdf"⟩,
               ⟨"A", "a2", "2001", "books/x.pdf"⟩] := by
  have h1 := Reachable.add ⟨"A", "a1", "2000", "http://e.com/x.pdf"⟩
    true 200 Reachable.start
  have h2 := Reachable.add ⟨"A", "a2", "2001", "http://e.com/x.pdf"⟩
    true 200 h1
  have e : (add_books ⟨"A", "a2", "2001", "http://e.com/x.pdf"⟩ true 200
      (add_books ⟨"A", "a1", "2000", "http://e.com/x.pdf"⟩ true 200 []).store).store =
      [⟨"A", "a1", "2000", "books/x.pdf"⟩, ⟨"A", "a2", "2001", "books/x.pdf"⟩] := by
    decide
  exact e ▸ h2

/-- Counterexample to C5: a reachable store in which two records share
the title `"A"`, so titles are not unique keys. -/
theorem title_uniqueness_counterexample :
    Reachable [⟨"A", "a1", "2000", "books/x.pdf"⟩,
               ⟨"A", "a2", "2001", "books/x.pdf"⟩] ∧
    ¬ (([⟨"A", "a1", "2000", "books/x.pdf"⟩,
         ⟨"A", "a2", "2001", "books/x.pdf"⟩] : List BookRec).map
        BookRec.title).Nodup :=
  ⟨dup_title_store_reachable, by decide⟩

/-- C5 (amended). Book records are not uniquely keyed by title: no
uniqueness is enforced, and a reachable store can contain two records
with equal titles. -/
theorem title_uniqueness_amended :
    ∃ s : List BookRec, Reachable s ∧ ¬ (s.map BookRec.title).Nodup :=
  ⟨[⟨"A", "a1", "2000", "books/x.pdf"⟩, ⟨"A", "a2", "2001", "books/x.pdf"⟩],
    dup_title_store_reachable, by decide⟩

/-- C6. Load error handling: for every state of `books.json`,
`load_books` returns normally (no exception reaches the caller), and
when the file is missing (`FileNotFoundError`) or its contents are not
valid JSON (`JSONDecodeError`) it catches the exception, prints a
message, and leaves `books_store` as the empty list. -/
theorem load_books_error_handling (fs : FileState) :
    (∃ j, load_books fs = Except.ok j) ∧
    ((fs = none ∨ fs = some none) → load_books fs = Except.ok (Json.arr [])) := by
  refine ⟨?_, ?_⟩
  · match fs with
    | none => exact ⟨Json.arr [], rfl⟩
    | some none => exact ⟨Json.arr [], rfl⟩
    | some (some j) => exact ⟨j, rfl⟩
  · rintro (rfl | rfl) <;> rfl

/-- Witness for C6 at the two error states of the file. -/
theorem load_books_error_handling_witness :
    load_books (none : FileState) = Except.ok (Json.arr []) ∧
    load_books (some none : FileState) = Except.ok (Json.arr []) :=
  ⟨(load_books_error_handling none).2 (Or.inl rfl),
   (load_books_error_handling (some none)).2 (Or.inr rfl)⟩

theorem csvRowOf_encodeRec (b : BookRec) :
    csvRowOf (encodeRec b) =
      Except.ok [Json.str b.title, Json.str b.author, Json.str b.year,
        Json.str b.file_path] :=
  rfl

theorem mapM_csvRowOf_encodeRec (s : List BookRec) :
    (s.map encodeRec).mapM csvRowOf =
      Except.ok (s.map fun b => [Json.str b.title, Json.str b.author,
        Json.str b.year, Json.str b.file_path]) := by
  rw [← List.mapM'_eq_mapM]
  induction s with
  | nil => rfl
  | cons b t ih =>
    rw [List.map_cons, List.mapM'_cons, csvRowOf_encodeRec, ih]
    rfl

/-- C7. CSV export: `export_as_csv` reads the JSON array from the file
`books.json` and not from the in-memory `books_store` (the rows written
do not depend on the in-memory store at all), and for a file holding the
array for records `s` it writes the header row
`title,author,year,file_path` followed by exactly one row per record of
the array, in array order, each holding that record's `title`, `author`,
`year` and `file_path` values. -/
theorem export_as_csv_reads_file (store₁ store₂ : List BookRec)
    (fs : FileState) (s : List BookRec) :
    export_as_csv store₁ fs = export_as_csv store₂ fs ∧
    export_as_csv store₁ (some (some (encodeStore s))) =
      Except.ok ((csvFieldnames.map Json.str) ::
        s.map fun b => [Json.str b.title, Json.str b.author, Json.str b.year,
          Json.str b.file_path]) := by
  refine ⟨rfl, ?_⟩
  show (do
    let rows ← (s.map encodeRec).mapM csvRowOf
    pure (csvFieldnames.map Json.str :: rows)) = _
  rw [mapM_csvRowOf_encodeRec]
  rfl

/-- C8. Record shape: on a valid URL and HTTP status 200, `add_books`
appends exactly one record whose `title`, `author` and `year` are the
raw user-entered strings and whose `file_path` joins the books directory
with the URL's basename; serialized, that record is a flat object with
exactly the four keys `title`, `author`, `year`, `file_path`. -/
theorem add_books_record_shape (inp : AddInput) (s : List BookRec) :
    (add_books inp true 200 s).store =
      s ++ [{ title := inp.title, author := inp.author,
              year := inp.publication_date,
              file_path := osPathJoin books_directory
                (osPathBasename inp.book_url) }] ∧
    encodeRec { title := inp.title, author := inp.author,
                year := inp.publication_date,
                file_path := osPathJoin books_directory
                  (osPathBasename inp.book_url) } =
      Json.obj [("title", Json.str inp.title),
                ("author", Json.str inp.author),
                ("year", Json.str inp.publication_date),
                ("file_path", Json.str (osPathJoin books_directory
                  (osPathBasename inp.book_url)))] :=
  ⟨rfl, rfl⟩

/-- C9. Add atomicity on failure: when the URL fails validation or the
HTTP download's status code is not 200, `add_books` returns early with
`books_store` completely unchanged and no file written. -/
theorem add_books_atomic_failure (inp : AddInput) (s : List BookRec)
    (urlValid : Bool) (status : Nat)
    (h : urlValid = false ∨ status ≠ 200) :
    (add_books inp urlValid status s).store = s ∧
    (add_books inp urlValid status s).written = none := by
  rcases h with rfl | hs
  · exact ⟨rfl, rfl⟩
  · cases urlValid
    · exact ⟨rfl, rfl⟩
    · constructor <;> simp [add_books, hs]

/-- Witness for C9: an invalid URL and a 404 download both leave the
store unchanged and write nothing. -/
theorem add_books_atomic_failure_witness :
    (add_books ⟨"t", "a", "2000", "u"⟩ false 200
      [⟨"A", "x", "1", "p"⟩]).store = [⟨"A", "x", "1", "p"⟩] ∧
    (add_books ⟨"t", "a", "2000", "http://e.com/x.pdf"⟩ true 404
      [⟨"A", "x", "1", "p"⟩]).store = [⟨"A", "x", "1", "p"⟩] ∧
    (add_books ⟨"t", "a", "2000", "http://e.com/x.pdf"⟩ true 404
      [⟨"A", "x", "1", "p"⟩]).written = none :=
  ⟨(add_books_atomic_failure ⟨"t", "a", "2000", "u"⟩ [⟨"A", "x", "1", "p"⟩]
      false 200 (Or.inl rfl)).1,
   (add_books_atomic_failure ⟨"t", "a", "2000", "http://e.com/x.pdf"⟩
      [⟨"A", "x", "1", "p"⟩] true 404 (Or.inr (by decide))).1,
   (add_books_atomic_failure ⟨"t", "a", "2000", "http://e.com/x.pdf"⟩
      [⟨"A", "x", "1", "p"⟩] true 404 (Or.inr (by decide))).2⟩

end LibraryMS
